import Mathlib

/-!
Verification of the swipeable-paging engine in src/Pager.js.

The numeric cells of the reanimated dataflow graph hold JavaScript numbers;
they are embedded as rationals.  The swipe decision on gesture release
(Pager.js, the argument of transitionTo inside translateX, lines 199-230)
is a pure function of the gesture cells and is embedded directly as
nextIndexOnRelease.  The stateful part of the engine (the translateX block,
transitionTo and componentDidUpdate) is embedded as a step function on an
explicit state record further below.
-/

set_option autoImplicit false

/-- JavaScript Math.abs (the reanimated abs node) on rationals. -/
def jsAbs (x : ℚ) : ℚ := if x < 0 then -x else x

/-- Swipe distance threshold, Pager.js line 115:
divide(this._layoutWidth, 1.75). -/
def swipeDistanceThreshold (w : ℚ) : ℚ := w / 1.75

/-- JavaScript Math.round (the reanimated round node): floor of x + 1/2,
rounding halves toward positive infinity. -/
def jsRound (x : ℚ) : ℤ := ⌊x + 1/2⌋

/-- The next target index computed on gesture release, Pager.js lines
199-230: if the absolute translation strictly exceeds the distance
threshold or the absolute velocity strictly exceeds 1200, take the
direction by dividing the qualifying quantity by its absolute value
(distance authoritative), subtract it from the current index, clamp to
[0, routesLength - 1] and round; otherwise keep the current index.
g is the translation cell, v the velocity cell, i the internal index cell,
w the layout width cell, n the routes length cell. -/
def nextIndexOnRelease (g v i w : ℚ) (n : ℕ) : ℚ :=
  if jsAbs g > swipeDistanceThreshold w ∨ jsAbs v > 1200 then
    ((jsRound (min (max 0 (i - (if jsAbs g > swipeDistanceThreshold w then g / jsAbs g else v / jsAbs v)))
        ((n : ℚ) - 1))) : ℚ)
  else i

/-- Mathematical sign function, used by the spec text to describe direction
resolution. -/
def signQ (x : ℚ) : ℚ := if 0 < x then 1 else if x < 0 then -1 else 0

/-- Follows the words of the spec (section 4.3) rather than the source:
both thresholds compared with greater-or-equal, direction from the sign of
the qualifying quantity.  Kept separate from nextIndexOnRelease (which is
taken from the source) so the two can be compared. -/
def specNextIndexOnRelease (g v i w : ℚ) (n : ℕ) : ℚ :=
  if jsAbs g ≥ swipeDistanceThreshold w ∨ jsAbs v ≥ 1200 then
    ((jsRound (min (max 0 (i - (if jsAbs g ≥ swipeDistanceThreshold w then signQ g else signQ v)))
        ((n : ℚ) - 1))) : ℚ)
  else i

/-- Division that records whether the denominator was zero (a zero
denominator would produce NaN or an infinity in the JavaScript source). -/
def safeDiv (a b : ℚ) : Option ℚ := if b = 0 then none else some (a / b)

/-- The release decision with the two direction divisions of Pager.js
lines 219 and 221 instrumented: mirrors the branch structure of the
source, evaluating a division only on the branch that the source takes,
and returns none if an evaluated division has a zero denominator. -/
def nextIndexOnReleaseChecked (g v i w : ℚ) (n : ℕ) : Option ℚ :=
  if jsAbs g > swipeDistanceThreshold w ∨ jsAbs v > 1200 then
    (if jsAbs g > swipeDistanceThreshold w then safeDiv g (jsAbs g) else safeDiv v (jsAbs v)).map
      (fun d => ((jsRound (min (max 0 (i - d)) ((n : ℚ) - 1))) : ℚ))
  else some i

/-- The cells of one Pager instance (Pager.js lines 84-116), the spring
state of the current transition (lines 119-129), the memory of the
onChange node watching _nextIndex (line 170), the last props seen by
componentDidUpdate (navigationState.index, navigationState.routes,
layout.width), and the log of jumpTo commit invocations (line 149-154,
recording the looked-up route key, none when the lookup is out of range
and the JavaScript source would fail reading route.key). -/
structure EngineState where
  gestureX : ℚ
  velocityX : ℚ
  gestureState : ℤ
  offsetX : ℚ
  position : ℚ
  index : ℚ
  nextIndex : ℚ
  isSwiping : Bool
  isSwipeGesture : Bool
  clockRunning : Bool
  routesLength : ℕ
  layoutWidth : ℚ
  springToValue : ℚ
  springFinished : Bool
  prevNextIndex : ℚ
  routes : List String
  propsIndex : ℚ
  propsWidth : ℚ
  commits : List (Option String)

/-- Initial cell values from the field initializers of Pager (lines
84-116): position seeded from the raw layout width, the layout width
cell seeded with the fallback 320 when the supplied width is zero
(JavaScript falsy), both index cells at the committed index. -/
def initState (idx w : ℚ) (routes : List String) : EngineState where
  gestureX := 0
  velocityX := 0
  gestureState := -1
  offsetX := 0
  position := -idx * w
  index := idx
  nextIndex := idx
  isSwiping := false
  isSwipeGesture := false
  clockRunning := false
  routesLength := routes.length
  layoutWidth := if w = 0 then 320 else w
  springToValue := 0
  springFinished := false
  prevNextIndex := idx
  routes := routes
  propsIndex := idx
  propsWidth := w
  commits := []

/-- The route-key lookup performed at commit time (line 151):
routes[Math.round(value)].key; an index outside the list yields no
route (the source would raise a TypeError reading .key of undefined). -/
def lookupRoute (routes : List String) (x : ℚ) : Option String :=
  let r := jsRound x
  if 0 ≤ r then routes.get? r.toNat else none

/-- Modelled from the spec: the spring integrator (section 4.4) is not
part of this repository (the source imports the spring node from its
animation library), so it is embedded from the spec words: one
integration step per display frame (1/60 s) of a damped harmonic spring
with damping 35, mass 2, stiffness 100; overshoot clamping (the position
may never cross the destination and rebound); the transition settles when
both residual speed and residual displacement fall under 0.001, snapping
to the destination.  Arguments: current position, current velocity,
destination; result: new position, new velocity, finished flag. -/
def springStep (pos vel toV : ℚ) : ℚ × ℚ × Bool :=
  let accel := (-100 * (pos - toV) - 35 * vel) / 2
  let vel2 := vel + accel / 60
  let pos2 := pos + vel2 / 60
  let pos3 := if (pos - toV) * (pos2 - toV) < 0 then toV else pos2
  let vel3 := if (pos - toV) * (pos2 - toV) < 0 then 0 else vel2
  if jsAbs vel3 < 1/1000 ∧ jsAbs (pos3 - toV) < 1/1000 then (toV, 0, true)
  else (pos3, vel3, false)

/-- First statement of the translateX block (lines 170-179): the onChange
node watching _nextIndex; when the watched value changed since the node
last evaluated and neither _index already equals _nextIndex nor
_isSwipeGesture is set, stop the clock and copy _nextIndex into _index. -/
def stepOnChange (s : EngineState) : EngineState :=
  if s.nextIndex = s.prevNextIndex then s
  else if s.index = s.nextIndex ∨ s.isSwipeGesture = true then
    { s with prevNextIndex := s.nextIndex }
  else
    { s with prevNextIndex := s.nextIndex, clockRunning := false, index := s.nextIndex }

/-- The ACTIVE branch of the gesture cond (lines 182-194): on the first
active frame snapshot the drag offset and raise the swiping flags, then
track position as offset plus translation and keep the clock stopped. -/
def stepActive (s : EngineState) : EngineState :=
  if s.isSwiping = true then
    { s with position := s.offsetX + s.gestureX, clockRunning := false }
  else
    { s with isSwiping := true, isSwipeGesture := true, offsetX := s.position,
             position := s.position + s.gestureX, clockRunning := false }

/-- The tail of transitionTo (lines 142-155): run one spring step (which
writes the position and the velocity cell, the spring state aliasing
them); when the spring reports finished, stop the clock, reset the
gesture cells and invoke the commit callback with the route looked up at
the rounded internal index. -/
def stepSpring (s : EngineState) : EngineState :=
  if (springStep s.position s.velocityX s.springToValue).2.2 = true then
    { s with position := (springStep s.position s.velocityX s.springToValue).1,
             velocityX := 0, gestureX := 0, springFinished := true, clockRunning := false,
             commits := s.commits ++ [lookupRoute s.routes s.index] }
  else
    { s with position := (springStep s.position s.velocityX s.springToValue).1,
             velocityX := (springStep s.position s.velocityX s.springToValue).2.1,
             springFinished := false }

/-- The non-ACTIVE branch (lines 195-232): clear the swiping flag and run
transitionTo (lines 131-156) on the release decision: if the clock is not
already running, seed the spring destination as -(index times layout
width), clear the finished flag, store the decided index and start the
clock; then run the spring (stepSpring). -/
def stepRelease (s : EngineState) : EngineState :=
  if s.clockRunning = true then stepSpring { s with isSwiping := false }
  else
    stepSpring
      { s with
        isSwiping := false,
        springToValue := -(nextIndexOnRelease s.gestureX s.velocityX s.index s.layoutWidth
          s.routesLength * s.layoutWidth),
        springFinished := false,
        index := nextIndexOnRelease s.gestureX s.velocityX s.index s.layoutWidth s.routesLength,
        clockRunning := true }

/-- One evaluation of the translateX block (lines 169-236): the onChange
statement, then the cond on the gesture state (ACTIVE is 4 in
react-native-gesture-handler). -/
def evalGraph (s : EngineState) : EngineState :=
  if (stepOnChange s).gestureState = 4 then stepActive (stepOnChange s)
  else stepRelease (stepOnChange s)

/-- componentDidUpdate (lines 63-81): when the committed index prop
changed, clear _isSwipeGesture and write the new index into _nextIndex;
when the routes length changed, refresh the _routesLength cell; when the
layout width changed, refresh the _layoutWidth cell (no fallback here);
finally remember the new props. -/
def componentDidUpdate (i : ℚ) (r : List String) (w : ℚ) (s : EngineState) : EngineState :=
  { s with
    isSwipeGesture := if i ≠ s.propsIndex then false else s.isSwipeGesture,
    nextIndex := if i ≠ s.propsIndex then i else s.nextIndex,
    routesLength := if r.length ≠ s.routes.length then r.length else s.routesLength,
    layoutWidth := if w ≠ s.propsWidth then w else s.layoutWidth,
    propsIndex := i, routes := r, propsWidth := w }

/-- External drivers of the engine: a frame tick of the evaluator, a
gesture-handler event writing the gesture cells, or a render with new
props running componentDidUpdate.  Modelled from the spec: the frame
graph evaluator (section 4.1) is not part of this repository; per the
spec it re-evaluates the graph on every frame while the clock is running
and whenever an input cell changed, so each driver is followed by one
evaluation of the translateX block. -/
inductive Event where
  | tick : Event
  | gesture (g v : ℚ) (st : ℤ) : Event
  | propsUpdate (i : ℚ) (r : List String) (w : ℚ) : Event

/-- Apply one external driver followed by one graph evaluation. -/
def applyEvent (e : Event) (s : EngineState) : EngineState :=
  match e with
  | Event.tick => evalGraph s
  | Event.gesture g v st =>
      evalGraph { s with gestureX := g, velocityX := v, gestureState := st }
  | Event.propsUpdate i r w => evalGraph (componentDidUpdate i r w s)

/-- A complete swipe from index 0 to index 1 (width 350, three routes):
drag to translation -350, release there with velocity 0 (the spring then
starts at its destination and settles on the release frame, committing
once), then the host echoes the committed index 1 back through props. -/
def traceSettleEcho : EngineState :=
  applyEvent (Event.propsUpdate 1 ["a", "b", "c"] 350)
    (applyEvent (Event.gesture (-350) 0 5)
      (applyEvent (Event.gesture (-350) 0 4)
        (initState 0 350 ["a", "b", "c"])))

/-- A drag in progress from index 0 (four routes, width 350) during which
the host commits index 2 externally; the drag then continues to
translation -201 and is released. -/
def traceMidDragExternal : EngineState :=
  applyEvent (Event.propsUpdate 2 ["a", "b", "c", "d"] 350)
    (applyEvent (Event.gesture (-20) (-5) 4)
      (initState 0 350 ["a", "b", "c", "d"]))

/-- The same scenario continued: drag on to -201 and release. -/
def traceMidDragRelease : EngineState :=
  applyEvent (Event.gesture (-201) 0 5)
    (applyEvent (Event.gesture (-201) 0 4) traceMidDragExternal)

/-- Idle engine at index 0 receiving an external committed-index change
to 1 (width 350, three routes). -/
def traceExternalIdle : EngineState :=
  applyEvent (Event.propsUpdate 1 ["a", "b", "c"] 350)
    (initState 0 350 ["a", "b", "c"])

/-- Idle engine at index 0 receiving an out-of-range external committed
index 5 together with a layout width of 0 (three routes). -/
def traceOutOfRange : EngineState :=
  applyEvent (Event.propsUpdate 5 ["a", "b", "c"] 0)
    (initState 0 350 ["a", "b", "c"])

/-- The clamped translation handed to the renderer (lines 240-245):
interpolate with equal input and output ranges [-maxTranslate, 0] and
CLAMP extrapolation, maxTranslate being layout.width times
(routes.length - 1). -/
def renderTranslateX (pos w : ℚ) (n : ℕ) : ℚ :=
  min 0 (max (-(w * ((n : ℚ) - 1))) pos)

/-- Host-side well-formedness enforced by the engine and its props: the
routes-length cell mirrors the routes list, the list is nonempty, the
next-index cell mirrors the committed index prop, and both the committed
index and the internal index lie in [0, routesLength - 1]. -/
def hostOK (s : EngineState) : Prop :=
  s.routesLength = s.routes.length ∧
  1 ≤ s.routesLength ∧
  s.nextIndex = s.propsIndex ∧
  (0 ≤ s.propsIndex ∧ s.propsIndex ≤ (s.routesLength : ℚ) - 1) ∧
  (0 ≤ s.index ∧ s.index ≤ (s.routesLength : ℚ) - 1)

/-- States reachable from a well-formed construction under ticks,
arbitrary gesture events, and renders whose props respect the host
invariant of the spec (committed index within range, nonempty routes)
and never shrink the page set. -/
inductive Reach : EngineState → Prop where
  | init (idx w : ℚ) (routes : List String) :
      routes ≠ [] → 0 ≤ idx → idx ≤ (routes.length : ℚ) - 1 →
      Reach (initState idx w routes)
  | tick {s : EngineState} : Reach s → Reach (applyEvent Event.tick s)
  | gesture {s : EngineState} (g v : ℚ) (st : ℤ) :
      Reach s → Reach (applyEvent (Event.gesture g v st) s)
  | props {s : EngineState} (i w : ℚ) (r : List String) :
      r ≠ [] → 0 ≤ i → i ≤ (r.length : ℚ) - 1 →
      s.routes.length ≤ r.length →
      Reach s → Reach (applyEvent (Event.propsUpdate i r w) s)

theorem jsAbs_eq_abs (x : ℚ) : jsAbs x = |x| := by
  unfold jsAbs
  by_cases h : x < 0
  · rw [if_pos h, abs_of_neg h]
  · rw [if_neg h, abs_of_nonneg (not_lt.mp h)]

theorem jsAbs_nonneg (x : ℚ) : 0 ≤ jsAbs x := by
  rw [jsAbs_eq_abs]; exact abs_nonneg x

theorem jsAbs_pos_of_gt {x t : ℚ} (ht : 0 ≤ t) (h : jsAbs x > t) : x ≠ 0 := by
  intro hx
  rw [hx] at h
  simp [jsAbs] at h
  exact absurd h (not_lt.mpr ht)

theorem jsRound_mono : Monotone jsRound :=
  fun _ _ h => Int.floor_le_floor (by linarith)

theorem jsRound_intCast (k : ℤ) : jsRound (k : ℚ) = k := by
  unfold jsRound
  rw [add_comm, Int.floor_add_int]
  norm_num

theorem jsRound_zero : jsRound 0 = 0 := by
  have := jsRound_intCast 0
  simpa using this

/-- Rounding commutes with clamping to integer bounds. -/
theorem jsRound_clamp (x : ℚ) (m : ℤ) :
    jsRound (min (max 0 x) (m : ℚ)) = min (max 0 (jsRound x)) m := by
  rw [jsRound_mono.map_min, jsRound_mono.map_max, jsRound_intCast, jsRound_zero]

/-- The rounded clamped swipe candidate lands in [0, n-1]. -/
theorem jsRound_clamp_range (x : ℚ) (n : ℕ) (hn : 1 ≤ n) :
    0 ≤ ((jsRound (min (max 0 x) ((n : ℚ) - 1))) : ℚ) ∧
      ((jsRound (min (max 0 x) ((n : ℚ) - 1))) : ℚ) ≤ (n : ℚ) - 1 := by
  have hcast : ((n : ℚ) - 1) = (((n : ℤ) - 1 : ℤ) : ℚ) := by push_cast; ring
  rw [hcast, jsRound_clamp]
  have hn' : (0 : ℤ) ≤ (n : ℤ) - 1 := by
    have : (1 : ℤ) ≤ (n : ℤ) := by exact_mod_cast hn
    omega
  constructor
  · push_cast
    have : (0 : ℤ) ≤ min (max 0 (jsRound x)) ((n : ℤ) - 1) :=
      le_min (le_max_left 0 _) hn'
    exact_mod_cast this
  · push_cast
    have : min (max 0 (jsRound x)) ((n : ℤ) - 1) ≤ (n : ℤ) - 1 := min_le_right _ _
    exact_mod_cast this

/-- The release decision keeps the index inside [0, n-1]. -/
theorem nextIndexOnRelease_range (g v i w : ℚ) (n : ℕ) (hn : 1 ≤ n)
    (h0 : 0 ≤ i) (h1 : i ≤ (n : ℚ) - 1) :
    0 ≤ nextIndexOnRelease g v i w n ∧ nextIndexOnRelease g v i w n ≤ (n : ℚ) - 1 := by
  unfold nextIndexOnRelease
  by_cases h : jsAbs g > swipeDistanceThreshold w ∨ jsAbs v > 1200
  · rw [if_pos h]
    exact jsRound_clamp_range _ n hn
  · rw [if_neg h]
    exact ⟨h0, h1⟩

/-- C1.  Swipe decision, snap-back case: if neither the absolute
translation reaches the distance threshold nor the absolute velocity
reaches 1200, the release keeps the current internal index; with layout
width 350 the distance threshold is exactly 200, and both the release at
translation -199 and the boundary release whose absolute translation
equals the threshold exactly (translation -200) leave the index
unchanged. -/
theorem c1_snap_back :
    (∀ (g v i w : ℚ) (n : ℕ),
        ¬(jsAbs g ≥ swipeDistanceThreshold w) → ¬(jsAbs v ≥ 1200) →
        nextIndexOnRelease g v i w n = i)
    ∧ swipeDistanceThreshold 350 = 200
    ∧ (∀ i : ℚ, nextIndexOnRelease (-199) 0 i 350 3 = i)
    ∧ (∀ i : ℚ, nextIndexOnRelease (-200) 0 i 350 3 = i) := by
  refine ⟨?_, by norm_num [swipeDistanceThreshold], ?_, ?_⟩
  · intro g v i w n hg hv
    rw [nextIndexOnRelease, if_neg]
    rintro (h | h)
    · exact hg (le_of_lt h)
    · exact hv (le_of_lt h)
  · intro i
    rw [nextIndexOnRelease, if_neg]
    norm_num [jsAbs, swipeDistanceThreshold]
  · intro i
    rw [nextIndexOnRelease, if_neg]
    norm_num [jsAbs, swipeDistanceThreshold]

theorem c1_snap_back_witness : nextIndexOnRelease (-150) 100 2 350 3 = 2 :=
  c1_snap_back.1 (-150) 100 2 350 3
    (by norm_num [jsAbs, swipeDistanceThreshold])
    (by norm_num [jsAbs])

/-- C2 counterexample.  The claim resolves direction from sign(gestureX)
as soon as the absolute translation is at least (meets) the distance
threshold; the source compares strictly.  At translation exactly equal to
the threshold (gestureX 200 with width 350) and velocity -1300, the claim
predicts direction +1 and next index 0; the source takes the velocity
branch and yields 2. -/
theorem c2_direction_counterexample :
    specNextIndexOnRelease 200 (-1300) 1 350 3 = 0 ∧
      nextIndexOnRelease 200 (-1300) 1 350 3 = 2 := by
  constructor
  · norm_num [specNextIndexOnRelease, swipeDistanceThreshold, jsAbs, signQ, jsRound, min_def,
      max_def]
  · norm_num [nextIndexOnRelease, swipeDistanceThreshold, jsAbs, jsRound, min_def, max_def]

/-- C2 amended.  On a qualifying release the direction sign is gestureX
divided by its absolute value when the absolute translation STRICTLY
exceeds the distance threshold, and velocityX divided by its absolute
value otherwise (distance authoritative only when it strictly exceeds);
concretely, translation -50 (below the distance threshold) with velocity
-1300 (above 1200) advances by exactly one index in the velocity
direction, subject to range clamping. -/
theorem c2_direction_amended :
    (∀ (g v i w : ℚ) (n : ℕ),
        (jsAbs g > swipeDistanceThreshold w ∨ jsAbs v > 1200) →
        nextIndexOnRelease g v i w n =
          ((jsRound (min (max 0 (i - (if jsAbs g > swipeDistanceThreshold w then g / jsAbs g
              else v / jsAbs v))) ((n : ℚ) - 1))) : ℚ))
    ∧ (∀ i : ℤ, nextIndexOnRelease (-50) (-1300) (i : ℚ) 350 3 =
        ((min (max 0 (i + 1)) 2 : ℤ) : ℚ)) := by
  constructor
  · intro g v i w n h
    rw [nextIndexOnRelease, if_pos h]
  · intro i
    rw [nextIndexOnRelease, if_pos, if_neg]
    · have h1 : (-1300 : ℚ) / jsAbs (-1300) = -1 := by norm_num [jsAbs]
      have h2 : ((3 : ℕ) : ℚ) - 1 = ((2 : ℤ) : ℚ) := by norm_num
      have h3 : (i : ℚ) - -1 = ((i + 1 : ℤ) : ℚ) := by push_cast; ring
      rw [h1, h2, h3, jsRound_clamp, jsRound_intCast]
    · norm_num [jsAbs, swipeDistanceThreshold]
    · norm_num [jsAbs, swipeDistanceThreshold]

theorem c2_direction_amended_witness :
    nextIndexOnRelease (-50) (-1300) 0 350 3 = 1 := by
  have h := c2_direction_amended.2 0
  norm_num at h
  exact h

/-- C3.  On a qualifying release the next index is round(index minus
direction) clamped to [0, routesLength - 1] (rounding and clamping
commute since the bounds are integers); at index routesLength - 1 an
advance swipe (direction -1) resolves to the same last index; and from
index 0 with 3 routes and width 350, a release at translation -201
yields index 1. -/
theorem c3_candidate_clamp :
    (∀ (g v i w : ℚ) (n : ℕ),
        (jsAbs g > swipeDistanceThreshold w ∨ jsAbs v > 1200) →
        nextIndexOnRelease g v i w n =
          ((min (max 0 (jsRound (i - (if jsAbs g > swipeDistanceThreshold w then g / jsAbs g
              else v / jsAbs v)))) ((n : ℤ) - 1) : ℤ) : ℚ))
    ∧ (∀ (n : ℕ) (g v w : ℚ), 1 ≤ n →
        (jsAbs g > swipeDistanceThreshold w ∨ jsAbs v > 1200) →
        (if jsAbs g > swipeDistanceThreshold w then g / jsAbs g else v / jsAbs v) = -1 →
        nextIndexOnRelease g v ((n : ℚ) - 1) w n = (n : ℚ) - 1)
    ∧ nextIndexOnRelease (-201) 0 0 350 3 = 1 := by
  refine ⟨?_, ?_, ?_⟩
  · intro g v i w n h
    rw [nextIndexOnRelease, if_pos h]
    have hcast : ((n : ℚ) - 1) = (((n : ℤ) - 1 : ℤ) : ℚ) := by push_cast; ring
    rw [hcast, jsRound_clamp]
  · intro n g v w hn h hdir
    rw [nextIndexOnRelease, if_pos h, hdir]
    have hn0 : (0 : ℚ) ≤ (n : ℚ) := by positivity
    have hmax : max 0 ((n : ℚ) - 1 - -1) = (n : ℚ) := by
      rw [max_eq_right] <;> linarith
    have hmin : min ((n : ℚ)) ((n : ℚ) - 1) = (n : ℚ) - 1 := by
      rw [min_eq_right]; linarith
    rw [hmax, hmin]
    have hcast : ((n : ℚ) - 1) = (((n : ℤ) - 1 : ℤ) : ℚ) := by push_cast; ring
    rw [hcast, jsRound_intCast]
  · norm_num [nextIndexOnRelease, swipeDistanceThreshold, jsAbs, jsRound, min_def, max_def]

theorem c3_candidate_clamp_witness : nextIndexOnRelease (-300) 0 2 350 3 = 2 := by
  have h := c3_candidate_clamp.2.1 3 (-300) 0 350 (by norm_num)
    (by norm_num [jsAbs, swipeDistanceThreshold])
    (by norm_num [jsAbs, swipeDistanceThreshold])
  norm_num at h
  exact h

/-- C8.  No division by zero in direction resolution: for any release
with a nonnegative layout width, the instrumented decision (which
evaluates a direction division only on the branch the source takes, and
reports none on a zero denominator) agrees with the plain decision and
never reports none; in particular a release with velocity exactly 0 and
sub-threshold distance resolves to no swipe without evaluating any
division. -/
theorem c8_no_division_by_zero :
    (∀ (g v i w : ℚ) (n : ℕ), 0 ≤ w →
        nextIndexOnReleaseChecked g v i w n = some (nextIndexOnRelease g v i w n))
    ∧ (∀ (g i w : ℚ) (n : ℕ), ¬(jsAbs g > swipeDistanceThreshold w) →
        nextIndexOnReleaseChecked g 0 i w n = some i) := by
  constructor
  · intro g v i w n hw
    have hT : 0 ≤ swipeDistanceThreshold w := by
      unfold swipeDistanceThreshold
      positivity
    unfold nextIndexOnReleaseChecked nextIndexOnRelease
    by_cases h : jsAbs g > swipeDistanceThreshold w ∨ jsAbs v > 1200
    · rw [if_pos h, if_pos h]
      by_cases hg : jsAbs g > swipeDistanceThreshold w
      · have hg0 : g ≠ 0 := jsAbs_pos_of_gt hT hg
        have : jsAbs g ≠ 0 := by
          rw [jsAbs_eq_abs]
          exact abs_ne_zero.mpr hg0
        rw [if_pos hg, if_pos hg, safeDiv, if_neg this]; rfl
      · have hv : jsAbs v > 1200 := h.resolve_left hg
        have hv0 : v ≠ 0 := jsAbs_pos_of_gt (by norm_num) hv
        have : jsAbs v ≠ 0 := by
          rw [jsAbs_eq_abs]
          exact abs_ne_zero.mpr hv0
        rw [if_neg hg, if_neg hg, safeDiv, if_neg this]; rfl
    · rw [if_neg h, if_neg h]
  · intro g i w n hg
    unfold nextIndexOnReleaseChecked
    rw [if_neg]
    rintro (h | h)
    · exact hg h
    · simp [jsAbs] at h
      exact absurd h (by norm_num)

theorem c8_no_division_by_zero_witness :
    nextIndexOnReleaseChecked (-50) (-1300) 0 350 3 =
      some (nextIndexOnRelease (-50) (-1300) 0 350 3) :=
  c8_no_division_by_zero.1 (-50) (-1300) 0 350 3 (by norm_num)

theorem jsAbs_zero : jsAbs 0 = 0 := by norm_num [jsAbs]

/-- A release with zeroed gesture cells decides no swipe (for a
nonnegative layout width) and keeps the index. -/
theorem nextIndexOnRelease_rest (i w : ℚ) (n : ℕ) (hw : 0 ≤ w) :
    nextIndexOnRelease 0 0 i w n = i := by
  have hT : 0 ≤ swipeDistanceThreshold w := by
    unfold swipeDistanceThreshold
    positivity
  have hguard : ¬(jsAbs (0 : ℚ) > swipeDistanceThreshold w ∨ jsAbs (0 : ℚ) > 1200) := by
    rw [jsAbs_zero]
    rintro (h | h)
    · exact absurd h (not_lt.mpr hT)
    · exact absurd h (by norm_num)
  rw [nextIndexOnRelease, if_neg hguard]

theorem hostOK_stepOnChange {s : EngineState} (h : hostOK s) : hostOK (stepOnChange s) := by
  obtain ⟨h1, h2, h3, h4, h5⟩ := h
  unfold stepOnChange
  split_ifs with hA hB
  · exact ⟨h1, h2, h3, h4, h5⟩
  · exact ⟨h1, h2, h3, h4, h5⟩
  · refine ⟨h1, h2, h3, h4, ?_⟩
    show 0 ≤ s.nextIndex ∧ s.nextIndex ≤ (s.routesLength : ℚ) - 1
    rw [h3]
    exact h4

theorem hostOK_stepActive {s : EngineState} (h : hostOK s) : hostOK (stepActive s) := by
  unfold stepActive
  split_ifs <;> exact h

theorem hostOK_stepSpring {s : EngineState} (h : hostOK s) : hostOK (stepSpring s) := by
  unfold stepSpring
  split_ifs <;> exact h

theorem hostOK_stepRelease {s : EngineState} (h : hostOK s) : hostOK (stepRelease s) := by
  obtain ⟨h1, h2, h3, h4, h5⟩ := h
  unfold stepRelease
  split_ifs with hc
  · exact hostOK_stepSpring ⟨h1, h2, h3, h4, h5⟩
  · apply hostOK_stepSpring
    refine ⟨h1, h2, h3, h4, ?_⟩
    show 0 ≤ nextIndexOnRelease s.gestureX s.velocityX s.index s.layoutWidth s.routesLength ∧
        nextIndexOnRelease s.gestureX s.velocityX s.index s.layoutWidth s.routesLength ≤
          (s.routesLength : ℚ) - 1
    exact nextIndexOnRelease_range s.gestureX s.velocityX s.index s.layoutWidth s.routesLength
      h2 h5.1 h5.2

theorem hostOK_evalGraph {s : EngineState} (h : hostOK s) : hostOK (evalGraph s) := by
  unfold evalGraph
  split_ifs with hc
  · exact hostOK_stepActive (hostOK_stepOnChange h)
  · exact hostOK_stepRelease (hostOK_stepOnChange h)

theorem hostOK_componentDidUpdate {s : EngineState} (i w : ℚ) (r : List String)
    (hr : r ≠ []) (hi0 : 0 ≤ i) (hi1 : i ≤ (r.length : ℚ) - 1)
    (hgrow : s.routes.length ≤ r.length) (h : hostOK s) :
    hostOK (componentDidUpdate i r w s) := by
  obtain ⟨h1, h2, h3, h4, h5⟩ := h
  have hlen : (if r.length ≠ s.routes.length then r.length else s.routesLength) = r.length := by
    split_ifs with hx
    · rfl
    · rw [h1, not_ne_iff.mp hx]
  refine ⟨?_, ?_, ?_, ?_, ?_⟩
  · show (if r.length ≠ s.routes.length then r.length else s.routesLength) = r.length
    exact hlen
  · show 1 ≤ (if r.length ≠ s.routes.length then r.length else s.routesLength)
    rw [hlen]
    exact List.length_pos.mpr hr
  · show (if i ≠ s.propsIndex then i else s.nextIndex) = i
    split_ifs with hx
    · rfl
    · rw [h3, not_ne_iff.mp hx]
  · show 0 ≤ i ∧
      i ≤ ((if r.length ≠ s.routes.length then r.length else s.routesLength : ℕ) : ℚ) - 1
    rw [hlen]
    exact ⟨hi0, hi1⟩
  · show 0 ≤ s.index ∧
      s.index ≤ ((if r.length ≠ s.routes.length then r.length else s.routesLength : ℕ) : ℚ) - 1
    rw [hlen]
    refine ⟨h5.1, le_trans h5.2 ?_⟩
    have hle : (s.routesLength : ℚ) ≤ (r.length : ℚ) := by
      rw [h1]
      exact_mod_cast hgrow
    linarith

theorem reach_hostOK {s : EngineState} (h : Reach s) : hostOK s := by
  induction h with
  | init idx w routes hr h0 h1 =>
      exact ⟨rfl, List.length_pos.mpr hr, rfl, ⟨h0, h1⟩, ⟨h0, h1⟩⟩
  | tick _ ih => exact hostOK_evalGraph ih
  | gesture g v st _ ih => exact hostOK_evalGraph ih
  | props i w r hr h0 h1 hgrow _ ih =>
      exact hostOK_evalGraph (hostOK_componentDidUpdate i w r hr h0 h1 hgrow ih)


theorem stepOnChange_gestureState (t : EngineState) :
    (stepOnChange t).gestureState = t.gestureState := by
  unfold stepOnChange
  split_ifs <;> rfl

/-- The onChange handler on an external index change: the watched value
changed, the internal index differs from it and the swipe-gesture flag is
clear, so the clock stops and the new index is copied into _index. -/
theorem stepOnChange_external {t : EngineState} (hne : ¬(t.nextIndex = t.prevNextIndex))
    (hidx : t.index ≠ t.nextIndex) (hflag : t.isSwipeGesture = false) :
    stepOnChange t =
      { t with
        prevNextIndex := t.nextIndex, clockRunning := false, index := t.nextIndex } := by
  unfold stepOnChange
  rw [if_neg hne, if_neg]
  rintro (hh | hh)
  · exact hidx hh
  · rw [hflag] at hh
    simp at hh

/-- With no active gesture, an evaluation runs the release branch. -/
theorem evalGraph_release {t : EngineState} (hst : t.gestureState ≠ 4) :
    evalGraph t = stepRelease (stepOnChange t) := by
  unfold evalGraph
  rw [if_neg]
  rw [stepOnChange_gestureState]
  exact hst

/-- The release branch with zeroed gesture cells and a stopped clock
decides no swipe and seeds the spring toward the current index offset. -/
theorem stepRelease_rest {t : EngineState} (hg : t.gestureX = 0) (hv : t.velocityX = 0)
    (hw : 0 ≤ t.layoutWidth) (hc : t.clockRunning = false) :
    stepRelease t =
      stepSpring
        { t with
          isSwiping := false, springToValue := -(t.index * t.layoutWidth),
          springFinished := false, index := t.index, clockRunning := true } := by
  unfold stepRelease
  rw [hc, if_neg (show ¬(false = true) from by simp), hg, hv,
    nextIndexOnRelease_rest t.index t.layoutWidth t.routesLength hw]

theorem stepSpring_index (t : EngineState) : (stepSpring t).index = t.index := by
  unfold stepSpring
  split_ifs <;> rfl

theorem stepSpring_springToValue (t : EngineState) :
    (stepSpring t).springToValue = t.springToValue := by
  unfold stepSpring
  split_ifs <;> rfl

theorem stepSpring_position (t : EngineState) :
    (stepSpring t).position = (springStep t.position t.velocityX t.springToValue).1 := by
  unfold stepSpring
  split_ifs <;> rfl

theorem stepSpring_clockRunning (t : EngineState) (hc : t.clockRunning = true) :
    (stepSpring t).clockRunning = !(springStep t.position t.velocityX t.springToValue).2.2 := by
  unfold stepSpring
  by_cases hfin : (springStep t.position t.velocityX t.springToValue).2.2 = true
  · rw [if_pos hfin, hfin]
    rfl
  · rw [if_neg hfin]
    rw [Bool.not_eq_true] at hfin
    rw [hfin]
    show t.clockRunning = !false
    rw [hc]
    rfl

/-- Shared analysis of an external committed-index change applied to an
idle engine (no active gesture, swipe flag clear, gesture cells reset,
clock stopped, index cells quiescent on the previous committed index):
componentDidUpdate copies the raw new index into _nextIndex, the onChange
handler copies it into _index, and the release branch then seeds and
starts the spring toward the new index offset, running its first step. -/
theorem idleExternalChange (s : EngineState) (i : ℚ)
    (h1 : s.gestureState ≠ 4) (h2 : s.isSwipeGesture = false)
    (h3 : s.gestureX = 0) (h4 : s.velocityX = 0) (h5 : 0 ≤ s.layoutWidth)
    (h6 : s.clockRunning = false) (h7 : s.nextIndex = s.propsIndex)
    (h8 : s.prevNextIndex = s.propsIndex) (h9 : i ≠ s.propsIndex) (h10 : s.index ≠ i) :
    (applyEvent (Event.propsUpdate i s.routes s.propsWidth) s).index = i ∧
    (applyEvent (Event.propsUpdate i s.routes s.propsWidth) s).springToValue
      = -(i * s.layoutWidth) ∧
    (applyEvent (Event.propsUpdate i s.routes s.propsWidth) s).position
      = (springStep s.position 0 (-(i * s.layoutWidth))).1 ∧
    (applyEvent (Event.propsUpdate i s.routes s.propsWidth) s).clockRunning
      = !(springStep s.position 0 (-(i * s.layoutWidth))).2.2 := by
  have e1 : componentDidUpdate i s.routes s.propsWidth s
      = { s with isSwipeGesture := false, nextIndex := i, propsIndex := i } := by
    unfold componentDidUpdate
    rw [if_pos h9, if_pos h9,
      if_neg (show ¬(s.routes.length ≠ s.routes.length) from fun hh => hh rfl),
      if_neg (show ¬(s.propsWidth ≠ s.propsWidth) from fun hh => hh rfl)]
  have e2 := stepOnChange_external
    (t := { s with isSwipeGesture := false, nextIndex := i, propsIndex := i })
    (by show ¬(i = s.prevNextIndex); rw [h8]; exact h9)
    (by exact h10) (by exact rfl)
  have e3 := evalGraph_release
    (t := { s with isSwipeGesture := false, nextIndex := i, propsIndex := i })
    (by exact h1)
  rw [show applyEvent (Event.propsUpdate i s.routes s.propsWidth) s
      = evalGraph (componentDidUpdate i s.routes s.propsWidth s) from rfl, e1, e3, e2]
  rw [stepRelease_rest (by exact h3) (by exact h4) (by exact h5) (by exact rfl)]
  rw [stepSpring_index, stepSpring_springToValue, stepSpring_position,
    stepSpring_clockRunning _ (by exact rfl)]
  rw [h4]
  exact ⟨rfl, rfl, rfl, rfl⟩

/-- C4.  Against the claim that jumpTo is invoked exactly once per
drag-then-settle and that re-supplying the committed index causes no
second commit: after a drag from index 0 to translation -350 (width 350,
three routes) and release, the settle frame commits once with the route
key at index 1; but when the host echoes the committed index 1 back
through props, the evaluation triggered by that update reseeds and
restarts the at-rest spring, which finishes immediately and invokes
jumpTo a second time with the same key. -/
theorem c4_settle_commit_echo :
    (applyEvent (Event.gesture (-350) 0 5)
        (applyEvent (Event.gesture (-350) 0 4) (initState 0 350 ["a", "b", "c"]))).commits
      = [some "b"] ∧
    traceSettleEcho.commits = [some "b", some "b"] := by
  constructor <;>
    norm_num [traceSettleEcho, applyEvent, evalGraph, stepOnChange, stepActive, stepRelease,
      stepSpring, componentDidUpdate, springStep, nextIndexOnRelease, swipeDistanceThreshold,
      jsAbs, jsRound, lookupRoute, initState, min_def, max_def, List.get?]

/-- C5.  Against the claim that an external committed-index change is
ignored while a drag is in flight: during an active drag from index 0
(four routes, width 350), an external change to index 2 clears the
swipe-gesture flag (componentDidUpdate writes it before _nextIndex, so
the onChange guard never suppresses) and overwrites the internal index
with 2 while the drag is still active; the subsequent release at
translation -201 then resolves to index 3, not to the index 1 the swipe
from index 0 would have produced. -/
theorem c5_midDrag_external_overwrites :
    traceMidDragExternal.isSwiping = true ∧ traceMidDragExternal.isSwipeGesture = false ∧
    traceMidDragExternal.index = 2 ∧ traceMidDragRelease.index = 3 := by
  refine ⟨?_, ?_, ?_, ?_⟩ <;>
    norm_num [traceMidDragRelease, traceMidDragExternal, applyEvent, evalGraph, stepOnChange,
      stepActive, stepRelease, stepSpring, componentDidUpdate, springStep, nextIndexOnRelease,
      swipeDistanceThreshold, jsAbs, jsRound, lookupRoute, initState, min_def, max_def,
      List.get?]

/-- C6 counterexample.  The claim says an external committed-index change
while idle sets the internal index with no animation (position is not
spring-animated toward the new offset).  On the engine idle at index 0
(width 350, three routes), an external change to index 1 does set the
internal index, but the same evaluation seeds the spring destination to
-350, starts the clock, and integrates the first spring step, moving
position from 0 to -175/36: the transition is animated, not an instant
cut. -/
theorem c6_external_change_animates :
    traceExternalIdle.index = 1 ∧ traceExternalIdle.clockRunning = true ∧
    traceExternalIdle.springToValue = -350 ∧ traceExternalIdle.position = -175 / 36 ∧
    traceExternalIdle.position ≠ 0 ∧ traceExternalIdle.position ≠ -350 := by
  refine ⟨?_, ?_, ?_, ?_, ?_, ?_⟩ <;>
    norm_num [traceExternalIdle, applyEvent, evalGraph, stepOnChange, stepActive, stepRelease,
      stepSpring, componentDidUpdate, springStep, nextIndexOnRelease, swipeDistanceThreshold,
      jsAbs, jsRound, lookupRoute, initState, min_def, max_def]

/-- C6 amended.  When the committed index changes externally while the
engine is idle (no active gesture, swipe flag clear, gesture cells reset,
clock stopped, index cells quiescent), any running spring is stopped and
the internal index is set to the raw new committed index, and the engine
then seeds the spring destination to -(new index times layout width),
starts the clock and integrates the spring from the old position: the
position is spring-animated toward the new offset rather than cut
instantly. -/
theorem c6_external_change_amended :
    ∀ (s : EngineState) (i : ℚ),
      s.gestureState ≠ 4 → s.isSwipeGesture = false → s.gestureX = 0 → s.velocityX = 0 →
      0 ≤ s.layoutWidth → s.clockRunning = false → s.nextIndex = s.propsIndex →
      s.prevNextIndex = s.propsIndex → i ≠ s.propsIndex → s.index ≠ i →
      (applyEvent (Event.propsUpdate i s.routes s.propsWidth) s).index = i ∧
      (applyEvent (Event.propsUpdate i s.routes s.propsWidth) s).springToValue
        = -(i * s.layoutWidth) ∧
      (applyEvent (Event.propsUpdate i s.routes s.propsWidth) s).position
        = (springStep s.position 0 (-(i * s.layoutWidth))).1 ∧
      (applyEvent (Event.propsUpdate i s.routes s.propsWidth) s).clockRunning
        = !(springStep s.position 0 (-(i * s.layoutWidth))).2.2 :=
  fun s i h1 h2 h3 h4 h5 h6 h7 h8 h9 h10 =>
    idleExternalChange s i h1 h2 h3 h4 h5 h6 h7 h8 h9 h10

theorem c6_external_change_amended_witness :
    traceExternalIdle.index = 1 ∧ traceExternalIdle.clockRunning = true := by
  have h := c6_external_change_amended (initState 0 350 ["a", "b", "c"]) 1
    (by norm_num [initState]) rfl rfl rfl (by norm_num [initState]) rfl rfl rfl
    (by norm_num [initState]) (by norm_num [initState])
  rw [show (initState 0 350 ["a", "b", "c"]).routes = ["a", "b", "c"] from rfl,
    show (initState 0 350 ["a", "b", "c"]).propsWidth = (350 : ℚ) from rfl] at h
  rw [show traceExternalIdle
    = applyEvent (Event.propsUpdate 1 ["a", "b", "c"] 350) (initState 0 350 ["a", "b", "c"])
    from rfl]
  refine ⟨h.1, ?_⟩
  rw [h.2.2.2]
  norm_num [initState, springStep, jsAbs, min_def, max_def]

/-- C7 counterexample.  The claim says position stays within
[-(routes-1) width, 0] in every reachable state including mid-drag
frames: but the reachable state obtained by dragging right by 100 from
idle index 0 (width 350, three routes) has raw position 100, outside the
claimed range. -/
theorem c7_midDrag_position_counterexample :
    Reach (applyEvent (Event.gesture 100 0 4) (initState 0 350 ["a", "b", "c"])) ∧
    (applyEvent (Event.gesture 100 0 4) (initState 0 350 ["a", "b", "c"])).position = 100 ∧
    ¬((applyEvent (Event.gesture 100 0 4) (initState 0 350 ["a", "b", "c"])).position ≤ 0) := by
  refine ⟨Reach.gesture 100 0 4
    (Reach.init 0 350 ["a", "b", "c"] (by simp) (by norm_num) (by norm_num)), ?_, ?_⟩ <;>
    norm_num [applyEvent, evalGraph, stepOnChange, stepActive, stepRelease, stepSpring,
      componentDidUpdate, springStep, nextIndexOnRelease, swipeDistanceThreshold, jsAbs,
      jsRound, lookupRoute, initState, min_def, max_def]

/-- C7 amended.  For every state reachable under in-range external
committed indices and a never-shrinking page set, the internal index lies
in [0, routesLength - 1]; and the clamped translation handed to the
renderer always lies in [-(routes-1) width, 0].  (The raw position cell
itself can leave that range during an active drag, as the counterexample
shows.) -/
theorem c7_range_amended :
    (∀ s : EngineState, Reach s → 0 ≤ s.index ∧ s.index ≤ (s.routesLength : ℚ) - 1)
    ∧ (∀ (pos w : ℚ) (n : ℕ), 0 ≤ w → 1 ≤ n →
        -(w * ((n : ℚ) - 1)) ≤ renderTranslateX pos w n ∧ renderTranslateX pos w n ≤ 0) := by
  constructor
  · intro s hs
    exact (reach_hostOK hs).2.2.2.2
  · intro pos w n hw hn
    unfold renderTranslateX
    have h1 : (1 : ℚ) ≤ (n : ℚ) := by exact_mod_cast hn
    have hmt : 0 ≤ w * ((n : ℚ) - 1) := by
      apply mul_nonneg hw
      linarith
    constructor
    · exact le_min (by linarith) (le_max_left _ _)
    · exact min_le_left _ _

theorem c7_range_amended_witness :
    (0 ≤ (initState 0 350 ["a", "b"]).index ∧
      (initState 0 350 ["a", "b"]).index ≤ ((initState 0 350 ["a", "b"]).routesLength : ℚ) - 1) ∧
    (-(350 * (((3 : ℕ) : ℚ) - 1)) ≤ renderTranslateX 100 350 3 ∧
      renderTranslateX 100 350 3 ≤ 0) :=
  ⟨c7_range_amended.1 (initState 0 350 ["a", "b"])
      (Reach.init 0 350 ["a", "b"] (by simp) (by norm_num) (by norm_num)),
    c7_range_amended.2 100 350 3 (by norm_num) (by norm_num)⟩

/-- C9 counterexample.  The claim says an out-of-range external committed
index is clamped and every downstream operation, including the
settle-time route lookup for jumpTo, completes without error.  Supplying
committed index 5 with three routes (and width 0, so the spring settles
immediately at the unchanged position) leaves the internal index at the
unclamped value 5, and the settle-time lookup finds no route: the
JavaScript source would raise a TypeError reading route.key. -/
theorem c9_invalid_index_counterexample :
    traceOutOfRange.index = 5 ∧ traceOutOfRange.routesLength = 3 ∧
    ¬(traceOutOfRange.index ≤ (3 : ℚ) - 1) ∧ traceOutOfRange.commits = [none] := by
  refine ⟨?_, ?_, ?_, ?_⟩ <;>
    norm_num [traceOutOfRange, applyEvent, evalGraph, stepOnChange, stepActive, stepRelease,
      stepSpring, componentDidUpdate, springStep, nextIndexOnRelease, swipeDistanceThreshold,
      jsAbs, jsRound, lookupRoute, initState, min_def, max_def, List.get?]

/-- C9 amended.  The engine does not clamp an out-of-range external
committed index: while idle, the synchronization path copies the raw
value into the internal index unchanged (whatever its range), and the
settle-time route lookup yields no route whenever the rounded index is at
least the routes length, so the commit cannot complete with a valid key
(the source fails reading route.key). -/
theorem c9_invalid_index_amended :
    (∀ (s : EngineState) (i : ℚ),
      s.gestureState ≠ 4 → s.isSwipeGesture = false → s.gestureX = 0 → s.velocityX = 0 →
      0 ≤ s.layoutWidth → s.clockRunning = false → s.nextIndex = s.propsIndex →
      s.prevNextIndex = s.propsIndex → i ≠ s.propsIndex → s.index ≠ i →
      (applyEvent (Event.propsUpdate i s.routes s.propsWidth) s).index = i)
    ∧ (∀ (routes : List String) (x : ℚ), (routes.length : ℤ) ≤ jsRound x →
        lookupRoute routes x = none) := by
  constructor
  · intro s i h1 h2 h3 h4 h5 h6 h7 h8 h9 h10
    exact (idleExternalChange s i h1 h2 h3 h4 h5 h6 h7 h8 h9 h10).1
  · intro routes x h
    unfold lookupRoute
    by_cases h0 : 0 ≤ jsRound x
    · rw [if_pos h0]
      apply List.get?_eq_none.mpr
      omega
    · rw [if_neg h0]

theorem c9_invalid_index_amended_witness :
    (applyEvent (Event.propsUpdate 5 ["a", "b", "c"] 350)
      (initState 0 350 ["a", "b", "c"])).index = 5 ∧
    lookupRoute ["a", "b", "c"] 5 = none := by
  constructor
  · have h := c9_invalid_index_amended.1 (initState 0 350 ["a", "b", "c"]) 5
      (by norm_num [initState]) rfl rfl rfl (by norm_num [initState]) rfl rfl rfl
      (by norm_num [initState]) (by norm_num [initState])
    rw [show (initState 0 350 ["a", "b", "c"]).routes = ["a", "b", "c"] from rfl,
      show (initState 0 350 ["a", "b", "c"]).propsWidth = (350 : ℚ) from rfl] at h
    exact h
  · exact c9_invalid_index_amended.2 ["a", "b", "c"] 5 (by norm_num [jsRound])

/-- C10.  Zero-width seeding asymmetry: constructing the engine with
layout width 0 seeds the internal layout-width cell with the fallback
320 (so the swipe distance threshold evaluates to 320/1.75 = 1280/7,
not 0), while the initial position is still computed from the raw
supplied width, -index times width, which is 0 for any index when the
width is 0; a nonzero width is kept as is. -/
theorem c10_zero_width_seeding :
    ((initState 0 0 ["a", "b"]).layoutWidth = 320)
    ∧ swipeDistanceThreshold ((initState 0 0 ["a", "b"]).layoutWidth) = 1280 / 7
    ∧ (∀ (idx : ℚ) (routes : List String), (initState idx 0 routes).position = 0)
    ∧ (∀ (idx w : ℚ) (routes : List String), (initState idx w routes).position = -idx * w)
    ∧ (∀ (idx w : ℚ) (routes : List String), w ≠ 0 →
        (initState idx w routes).layoutWidth = w) := by
  refine ⟨by norm_num [initState], by norm_num [initState, swipeDistanceThreshold], ?_, ?_, ?_⟩
  · intro idx routes
    show -idx * 0 = 0
    ring
  · intro idx w routes
    rfl
  · intro idx w routes hw
    show (if w = 0 then 320 else w) = w
    rw [if_neg hw]

theorem c10_zero_width_seeding_witness : (initState 2 350 ["a"]).layoutWidth = 350 :=
  c10_zero_width_seeding.2.2.2.2 2 350 ["a"] (by norm_num)
